import Mathlib

/-!
Verification development for the mqtt2sql bridge (src/mqtt2sql.py, with the
earlier revision src/mqtt2mysql.py). The Python source is shallowly embedded:
pure computations become Lean functions, the stateful per-message writer
becomes an explicit trace function parameterized by the environment (the
results the database and broker would return), and the concurrency of the
connection-permit pool becomes a small step relation whose reachable states
are analyzed. Machine integers in the source are small Python ints; they are
embedded as Nat / Int directly (no overflow occurs in the modelled code).
-/

/-! ## Exit codes (class ExitCode, src/mqtt2sql.py lines 36-43) -/

/-- Program return code OK (src/mqtt2sql.py line 40). -/
def ExitCode.OK : Nat := 0

/-- Program return code for a missing python module (line 41). -/
def ExitCode.MISSING_MODULE : Nat := 1

/-- Program return code for an MQTT connection error (line 42). -/
def ExitCode.MQTT_CONNECTION_ERROR : Nat := 2

/-- Program return code for an SQL connection error (line 43). -/
def ExitCode.SQL_CONNECTION_ERROR : Nat := 3

/-! ## Messages (paho MQTTMessage: members topic, payload, qos, retain).
The payload is a byte sequence; bytes are embedded as Nat values below 256
(the definitions reduce other values modulo 256 where the byte structure
matters, mirroring the fact that Python bytes are always in range). -/

/-- An inbound MQTT message as consumed by Mqtt2Sql.write2sql and
Mqtt2Sql.on_message: topic, payload bytes, qos, retain. The retain flag is
kept as a Nat because paho hands an int 0/1 which the source formats
directly into SQL text. -/
structure MqttMessage where
  topic : String
  payload : List Nat
  qos : Nat
  retain : Nat
deriving DecidableEq

/-! ## Python value and exit semantics needed for the termination paths.
SignalHandler.exitus (src/mqtt2sql.py lines 915-934) receives a `status`
argument, maps SIGINT/SIGTERM to 0, and calls sys.exit(status). CPython
sys.exit semantics: an int argument becomes the process exit status, any
other object (such as a string) is printed and the exit status is 1. -/

/-- A Python value as far as the exit paths need: an int or a str. -/
inductive PyVal where
  | int (n : Int)
  | str (s : String)
deriving DecidableEq

/-- Signal number of SIGINT on POSIX systems. -/
def SIGINT : Int := 2

/-- Signal number of SIGTERM on POSIX systems. -/
def SIGTERM : Int := 15

/-- Body of SignalHandler.exitus (lines 929-934) restricted to its effect on
the status value: a status equal to signal.SIGINT or signal.SIGTERM is
replaced by 0 (line 932-933); the result is then passed to sys.exit
(line 934). Python compares with ==, so a str status never equals the int
signal numbers. -/
def exitusFinalStatus (status : PyVal) : PyVal :=
  if status = PyVal.int SIGINT ∨ status = PyVal.int SIGTERM then PyVal.int 0
  else status

/-- CPython semantics of sys.exit: an int argument is the process exit
status; any other argument (here: a str) is printed to stderr and the exit
status is 1. -/
def sysExitStatus : PyVal → Int
  | PyVal.int n => n
  | PyVal.str _ => 1

/-- The `status` argument that actually reaches exitus when the source calls
it on the class, as in `SignalHandler.exitus(ExitCode.SQL_CONNECTION_ERROR,
message)` (line 551) or `SignalHandler.exitus(ret, message)` (line 456):
exitus is an instance method `def exitus(self, status=0, message="end")`, so
in the unbound call the first positional argument (the exit code) binds
`self` and the second positional argument (the log message) binds `status`.
This definition records that binding: the value landing in `status` is the
message string. -/
def classCallExitusStatusArg (message : String) : PyVal :=
  PyVal.str message

/-- Log message built at line 551 for the SQL connect give-up path; it is
the second positional argument of the class-level exitus call there. -/
def sqlGiveUpMessage (err : String) : String :=
  "SQL connection ERROR: " ++ err ++ " - give up"

/-! ## Connect phase of Mqtt2Sql.write2sql (lines 508-551).
The loop keeps a mutable `connection_retry` counter starting at
args.sql_connection_retry; each failed connect decrements it, an error whose
code err.args[0] equals 2005 forces it to 0 (lines 541-542), and the loop
retries while the counter stays positive. The environment (what each
MySQLdb.connect / sqlite3.connect attempt does) is a function from the
attempt index to an outcome. -/

/-- Outcome of one storage connect attempt: success, or an exception whose
first argument is the given error code (0 when err.args[0] is missing,
line 540). -/
inductive ConnectAttempt where
  | success
  | failure (code : Int)
deriving DecidableEq

/-- Update of the connection_retry counter after a failed attempt
(lines 536-542): decrement, then force to 0 when the error code is 2005. -/
def connectRetryAfterFailure (retry : Nat) (code : Int) : Nat :=
  let r := retry - 1
  if code = 2005 then 0 else r

/-- Result of the connect phase. `connected n` and `gaveUp n` record the
total number of connect attempts performed; `noAttempt` is the fall-through
when the loop is entered with a zero counter, leaving db_connection = None
(line 512). -/
inductive ConnectOutcome where
  | connected (attempts : Nat)
  | gaveUp (attempts : Nat)
  | noAttempt
deriving DecidableEq

/-- The connect loop (lines 513-551) with the retry counter as the first
argument and the index of the next attempt as the second. On a failure the
counter becomes connectRetryAfterFailure; when that value is positive the
source sleeps the connection delay and iterates (the recursive call passes
`retry`, which equals the updated counter because the updated counter is
positive only when the code is not 2005, in which case it is exactly
`retry`); otherwise the source logs, sends itself SIGTERM and calls exitus
(the gaveUp outcome). The per-iteration exit_code check (line 514) never
fires in a trace with a constant exit flag, which the caller below models
by checking the flag once at function entry (line 504). -/
def connectLoop (env : Nat → ConnectAttempt) : Nat → Nat → ConnectOutcome
  | 0, _ => ConnectOutcome.noAttempt
  | retry + 1, k =>
    match env k with
    | ConnectAttempt.success => ConnectOutcome.connected (k + 1)
    | ConnectAttempt.failure code =>
      if connectRetryAfterFailure (retry + 1) code > 0 then
        connectLoop env retry (k + 1)
      else
        ConnectOutcome.gaveUp (k + 1)

/-! ## Backoff delays (lines 483-484, 509-510 and 546-547). -/

/-- Value of the mutable connection_delay variable when the k-th failed
attempt sleeps (k = 0, 1, ...): it starts at the configured base
(sql_connection_retry_start_delay, line 509) and line 547 adds the base
again after each sleep. -/
def connectionDelayAt (base : ℚ) : Nat → ℚ
  | 0 => base
  | k + 1 => connectionDelayAt base k + base

/-- Jittered transaction retry delay (lines 483-484): random() yields a
value r in the unit interval and the delay is r * 2. -/
def transactionDelay (r : ℚ) : ℚ :=
  r * 2

/-! ## String helpers used by the error classification and the SQL
statement builders. The single-quote character is written Char.ofNat 39
throughout. -/

/-- The single-quote character, code point 39. -/
def quoteChar : Char := Char.ofNat 39

/-- One-character string holding the single-quote character. -/
def sqStr : String := String.singleton quoteChar

/-- Lowercasing of a string, modelling Python str.lower() on the ASCII
error texts the source compares against (line 621). -/
def strToLower (s : String) : String :=
  String.mk (s.toList.map Char.toLower)

/-- Suffix of the text after the first occurrence of the marker, or none
when the marker does not occur. -/
def afterMarker (marker : List Char) : List Char → Option (List Char)
  | [] => none
  | c :: cs =>
    if (c :: cs).take marker.length = marker then some ((c :: cs).drop marker.length)
    else afterMarker marker cs

/-- Substring test: does the marker occur inside the text. -/
def hasSubstr (marker text : List Char) : Bool :=
  (afterMarker marker text).isSome

/-! ## Transaction-error classification (lines 613-623). -/

/-- Retry condition passed to sql_execute_exception for a MySQLdb.Error
(line 615): the error code is one of 1040, 1205, 1213. -/
def mysqlRetryCondition (code : Int) : Bool :=
  code == 1040 || code == 1205 || code == 1213

/-- Retry condition passed to sql_execute_exception for a sqlite3.Error
reaching the outer handler (line 621): the lowercased error text contains
the substring "database is locked". -/
def sqliteRetryCondition (msg : String) : Bool :=
  hasSubstr "database is locked".toList (strToLower msg).toList

/-! ## sql_execute_exception (lines 467-498), the local handler for SQL
transaction errors inside write2sql. Its observable effect on the writer
state: in the retry branch it decrements transaction_retry and sleeps the
jittered delay; otherwise it attempts a rollback, and only when the
rollback does not itself raise does it set transaction_retry to 0
(lines 494-498: the assignment is inside the try, after the rollback). -/

/-- State produced by sql_execute_exception: the new transaction_retry
counter, whether the jittered transaction delay was slept, and whether the
rollback went through. -/
structure TxErrState where
  transaction_retry : Nat
  slept : Bool
  rolledBack : Bool
deriving DecidableEq

/-- Effect of sql_execute_exception given the retry condition, whether
db_connection.rollback() raises, and the current transaction_retry. -/
def sql_execute_exception (retry_condition rollbackRaises : Bool)
    (transaction_retry : Nat) : TxErrState :=
  if retry_condition then
    { transaction_retry := transaction_retry - 1, slept := true, rolledBack := false }
  else if rollbackRaises then
    { transaction_retry := transaction_retry, slept := false, rolledBack := false }
  else
    { transaction_retry := 0, slept := false, rolledBack := true }

/-! ## The whole writer Mqtt2Sql.write2sql (lines 458-632) as a trace
function. The environment supplies the outcome of each connect attempt and
of each transaction attempt; the shared exit flag self.exit_code is held
constant over the trace (it is only written by other tasks; the modelled
traces are those without a concurrent mutation mid-write), so the checks at
lines 504, 514 and 555 all see the same value and the model checks it once
at entry. -/

/-- Outcome of one transaction attempt (one pass through the try block at
lines 558-623): success of execute plus commit; a MySQLdb.Error carrying
the given code; a sqlite3.OperationalError raised by one of the two
cursor.execute calls and caught by the inner handler at lines 605-607
(which sets self.exit_code and calls sys.exit); or a sqlite3.Error with the
given text reaching the outer handler at line 619 (an error from commit, or
a non-operational error from execute). -/
inductive TxAttempt where
  | success
  | mysqlErr (code : Int)
  | sqliteExecOpErr
  | sqliteErr (msg : String)
deriving DecidableEq

/-- Way in which the writer invocation ended. returnedNormally covers the
`return` inside the finally block (line 629) and the fall-through at
line 632; exitedEarly is the sys.exit(0) on the cancellation checkpoints
(lines 504-505, 514-515, 555-556); fatalSqlGiveUp is the connect-exhaustion
path (lines 548-551: log, os.kill(SIGTERM), class-level exitus call);
crashedNoConnection is the unhandled AttributeError raised by using
db_connection = None when the connect loop was entered with a zero
counter. -/
inductive WriterTermination where
  | returnedNormally
  | exitedEarly
  | fatalSqlGiveUp
  | crashedNoConnection
deriving DecidableEq

/-- Observable trace of one write2sql invocation. Counter and flag fields
report 0 / false when the phase they belong to was never entered.
txRetryFinal is the final value of the transaction_retry variable,
sleptTxDelay whether the jittered transaction delay was slept, rolledBack
whether a rollback succeeded, releases how many times
self.pool_sqlconnections.release() ran, committed whether
db_connection.commit() succeeded, and exitCodeAfter the value the
invocation left in self.exit_code (ExitCode.OK unless the inner sqlite
handler at line 606 ran). -/
structure WriteTrace where
  termination : WriterTermination
  connectAttempts : Nat
  txAttempts : Nat
  txRetryFinal : Nat
  sleptTxDelay : Bool
  rolledBack : Bool
  releases : Nat
  committed : Bool
  exitCodeAfter : Nat
deriving DecidableEq

/-- Configuration slice of the parsed arguments that write2sql reads. -/
structure Args where
  sql_connection_retry : Nat
  sql_transaction_retry : Nat
deriving DecidableEq

/-- Trace semantics of Mqtt2Sql.write2sql (lines 458-632). The transaction
loop (lines 554-629) is written without a recursive call because the
`return` statement inside the finally block (lines 625-629) exits the
function on every pass through the try block — after a success, after a
handled MySQLdb.Error or sqlite3.Error, and even after the sys.exit of the
inner sqlite handler (a return inside finally swallows the in-flight
SystemExit) — so the loop body can never run a second time and only
txEnv 0 is ever consulted. Each pass through the try block closes the
cursor, closes the connection and releases the pool permit exactly once;
the fall-through when the loop guard is initially false (transaction budget
zero) releases at lines 631-632; every other path ends the invocation
without releasing. -/
def write2sql (args : Args) (exitPending : Bool) (connEnv : Nat → ConnectAttempt)
    (rollbackRaises : Bool) (txEnv : Nat → TxAttempt) : WriteTrace :=
  if exitPending then
    { termination := WriterTermination.exitedEarly, connectAttempts := 0, txAttempts := 0,
      txRetryFinal := 0, sleptTxDelay := false, rolledBack := false, releases := 0,
      committed := false, exitCodeAfter := 0 }
  else
    match connectLoop connEnv args.sql_connection_retry 0 with
    | ConnectOutcome.gaveUp n =>
      { termination := WriterTermination.fatalSqlGiveUp, connectAttempts := n, txAttempts := 0,
        txRetryFinal := 0, sleptTxDelay := false, rolledBack := false, releases := 0,
        committed := false, exitCodeAfter := 0 }
    | ConnectOutcome.noAttempt =>
      { termination := WriterTermination.crashedNoConnection, connectAttempts := 0, txAttempts := 0,
        txRetryFinal := 0, sleptTxDelay := false, rolledBack := false, releases := 0,
        committed := false, exitCodeAfter := 0 }
    | ConnectOutcome.connected n =>
      match args.sql_transaction_retry with
      | 0 =>
        { termination := WriterTermination.returnedNormally, connectAttempts := n, txAttempts := 0,
          txRetryFinal := 0, sleptTxDelay := false, rolledBack := false, releases := 1,
          committed := false, exitCodeAfter := 0 }
      | retry + 1 =>
        match txEnv 0 with
        | TxAttempt.success =>
          { termination := WriterTermination.returnedNormally, connectAttempts := n, txAttempts := 1,
            txRetryFinal := 0, sleptTxDelay := false, rolledBack := false, releases := 1,
            committed := true, exitCodeAfter := 0 }
        | TxAttempt.mysqlErr code =>
          let s := sql_execute_exception (mysqlRetryCondition code) rollbackRaises (retry + 1)
          { termination := WriterTermination.returnedNormally, connectAttempts := n, txAttempts := 1,
            txRetryFinal := s.transaction_retry, sleptTxDelay := s.slept, rolledBack := s.rolledBack,
            releases := 1, committed := false, exitCodeAfter := 0 }
        | TxAttempt.sqliteExecOpErr =>
          { termination := WriterTermination.returnedNormally, connectAttempts := n, txAttempts := 1,
            txRetryFinal := retry + 1, sleptTxDelay := false, rolledBack := false, releases := 1,
            committed := false, exitCodeAfter := ExitCode.SQL_CONNECTION_ERROR }
        | TxAttempt.sqliteErr msg =>
          let s := sql_execute_exception (sqliteRetryCondition msg) rollbackRaises (retry + 1)
          { termination := WriterTermination.returnedNormally, connectAttempts := n, txAttempts := 1,
            txRetryFinal := s.transaction_retry, sleptTxDelay := s.slept, rolledBack := s.rolledBack,
            releases := 1, committed := false, exitCodeAfter := 0 }

/-! ## Payload hex encoding (message.payload.hex(), lines 568, 582, 596).
Python bytes.hex() renders each byte as two lowercase hex digits. -/

/-- Lowercase hex digit for a value below 16: digits 0-9 are code points
48-57, digits a-f are code points 97-102. -/
def hexDigit (n : Nat) : Char :=
  if n < 10 then Char.ofNat (48 + n) else Char.ofNat (87 + n)

/-- Hex encoding of a byte sequence, two lowercase digits per byte,
modelling bytes.hex(). -/
def hexEncode : List Nat → List Char
  | [] => []
  | b :: rest => hexDigit (b % 256 / 16) :: hexDigit (b % 16) :: hexEncode rest

/-- Hex encoding as a string. -/
def hexEncodeStr (bs : List Nat) : String :=
  String.mk (hexEncode bs)

/-! ## SQL statement builders (lines 560-600). The source interpolates the
table name, timestamp, raw topic, hex payload, qos and retain directly into
the statement template with str.format, without escaping or parameter
binding; only the payload goes through hex(). Run-on whitespace from the
python line continuations inside the template strings is normalized to
single spaces here; the quoting structure is reproduced exactly. -/

/-- The MySQL upsert statement built at lines 561-571. -/
def mysqlSql (table ts topic payloadHex qos retain : String) : String :=
  "INSERT INTO `" ++ table ++ "` SET `ts`=" ++ sqStr ++ ts ++ sqStr ++
  ",`topic`=" ++ sqStr ++ topic ++ sqStr ++
  ",`value`=x" ++ sqStr ++ payloadHex ++ sqStr ++
  ",`qos`=" ++ sqStr ++ qos ++ sqStr ++
  ",`retain`=" ++ sqStr ++ retain ++ sqStr ++
  " ON DUPLICATE KEY UPDATE `ts`=" ++ sqStr ++ ts ++ sqStr ++
  ",`value`=x" ++ sqStr ++ payloadHex ++ sqStr ++
  ",`qos`=" ++ sqStr ++ qos ++ sqStr ++
  ",`retain`=" ++ sqStr ++ retain ++ sqStr

/-- The SQLite insert-if-absent statement sql1 built at lines 575-585. -/
def sqliteSql1 (table ts topic payloadHex qos retain : String) : String :=
  "INSERT OR IGNORE INTO `" ++ table ++ "` (ts,topic,value,qos,retain) VALUES(" ++
  sqStr ++ ts ++ sqStr ++ "," ++ sqStr ++ topic ++ sqStr ++ ",x" ++
  sqStr ++ payloadHex ++ sqStr ++ "," ++ sqStr ++ qos ++ sqStr ++ "," ++
  sqStr ++ retain ++ sqStr ++ ")"

/-- The SQLite unconditional update statement sql2 built at lines 586-599. -/
def sqliteSql2 (table ts topic payloadHex qos retain : String) : String :=
  "UPDATE `" ++ table ++ "` SET ts=" ++ sqStr ++ ts ++ sqStr ++
  ", value=x" ++ sqStr ++ payloadHex ++ sqStr ++
  ", qos=" ++ sqStr ++ qos ++ sqStr ++
  ", retain=" ++ sqStr ++ retain ++ sqStr ++
  " WHERE topic=" ++ sqStr ++ topic ++ sqStr

/-- Reading of the quoted topic literal out of a statement, the way an SQL
lexer does: find the first occurrence of the marker (the text up to and
including the opening quote of the topic literal) and take characters until
the next single-quote character closes the literal. -/
def topicLiteralAfter (marker : String) (stmt : String) : Option String :=
  (afterMarker marker.toList stmt.toList).map
    (fun suffix => String.mk (suffix.takeWhile (fun c => c != quoteChar)))

/-! ## Stored-record table semantics (database engine view of the
statements above, for fields free of SQL metacharacters). A table is a list
of rows; the engine semantics of the three statements on such a table:
INSERT OR IGNORE adds the row only when no row with that topic exists
(topic is the unique key of the table, README schema), the UPDATE rewrites
every row whose topic matches, and the MySQL INSERT .. ON DUPLICATE KEY
UPDATE inserts when the key is absent and updates the matching row
otherwise. -/

/-- One row of the destination table: columns topic (unique key), ts,
value, qos, retain. -/
structure SqlRow where
  topic : String
  ts : String
  value : String
  qos : Nat
  retain : Nat
deriving DecidableEq

/-- Does the table hold a row with the given topic. -/
def hasTopic (t : List SqlRow) (x : String) : Bool :=
  t.any (fun row => row.topic == x)

/-- Number of rows of the table holding the given topic. -/
def topicCount (t : List SqlRow) (x : String) : Nat :=
  (t.filter (fun row => row.topic == x)).length

/-- Uniqueness invariant of the destination table: at most one row per
topic. -/
def UniqTable (t : List SqlRow) : Prop :=
  ∀ x, topicCount t x ≤ 1

/-- Engine semantics of sqliteSql1 (INSERT OR IGNORE keyed on topic). -/
def insertOrIgnore (t : List SqlRow) (r : SqlRow) : List SqlRow :=
  if hasTopic t r.topic then t else t ++ [r]

/-- Per-row effect of the UPDATE statement: a row whose topic matches takes
the new ts, value, qos and retain; other rows are untouched. -/
def applyUpdate (r row : SqlRow) : SqlRow :=
  if row.topic == r.topic then
    { topic := row.topic, ts := r.ts, value := r.value, qos := r.qos, retain := r.retain }
  else row

/-- Engine semantics of sqliteSql2 (UPDATE .. WHERE topic matches). -/
def updateWhereTopic (t : List SqlRow) (r : SqlRow) : List SqlRow :=
  t.map (applyUpdate r)

/-- Effect of one committed SQLite transaction of write2sql (lines 602-609):
cursor.execute(sql1) then cursor.execute(sql2) then commit, i.e.
insert-if-absent followed by the unconditional update matching the topic,
as one transaction. -/
def sqliteWrite (t : List SqlRow) (r : SqlRow) : List SqlRow :=
  updateWhereTopic (insertOrIgnore t r) r

/-- Engine semantics of the MySQL statement (lines 561-571): insert when
the topic key is absent, else update the row with the matching key. -/
def mysqlUpsert (t : List SqlRow) (r : SqlRow) : List SqlRow :=
  if hasTopic t r.topic then updateWhereTopic t r else t ++ [r]

/-- Replay of a whole sequence of committed SQLite writes. -/
def sqliteWriteAll : List SqlRow → List SqlRow → List SqlRow
  | [], t => t
  | r :: rest, t => sqliteWriteAll rest (sqliteWrite t r)

/-! ## Message dispatch, Mqtt2Sql.on_message (lines 739-763). -/

/-- Default pool capacity, DEFAULTS sql-max-connection (line 118). -/
def default_sql_max_connection : Nat := 50

/-- What the on_message callback does with an inbound message: exit the
calling thread with the stored exit code (lines 752-753), return without
touching the pool (line 760), or acquire a pool permit and start a
write2sql thread (lines 761-763). -/
inductive DispatchAction where
  | exitProcess (code : Nat)
  | skip
  | dispatch
deriving DecidableEq

/-- Exclusion test of line 759: the exclusion list is present and the topic
is a member (Python `in` on a list of strings, i.e. exact equality with
some entry). -/
def excludedTopic (excl : Option (List String)) (topic : String) : Bool :=
  match excl with
  | none => false
  | some l => l.contains topic

/-- Control flow of Mqtt2Sql.on_message (lines 752-763): a non-OK exit code
exits; an excluded topic returns before the pool permit acquisition; any
other message acquires a permit and starts the writer thread. -/
def on_message (exit_code : Nat) (excl : Option (List String)) (topic : String) :
    DispatchAction :=
  if exit_code ≠ ExitCode.OK then DispatchAction.exitProcess exit_code
  else if excludedTopic excl topic then DispatchAction.skip
  else DispatchAction.dispatch

/-! ## Connection permit pool (lines 446, 761-763, 628, 632). The
BoundedSemaphore pool_sqlconnections is created with value
args.sql_max_connection; on_message acquires a permit (blocking while none
is available) before starting each writer thread, and a writer thread ends
either after releasing the permit or — on the early-exit and fatal paths
shown in write2sql above — without releasing it. -/

/-- State of the pool: free permits and in-flight writer threads. -/
structure PoolState where
  available : Nat
  inflight : Nat
deriving DecidableEq

/-- Initial pool state: all permits free, no writers. -/
def initPool (cap : Nat) : PoolState :=
  { available := cap, inflight := 0 }

/-- Steps of the dispatch/writer system. dispatch is on_message acquiring a
permit and starting a writer: it requires a free permit (acquire blocks
otherwise, which is the backpressure on the transport callback).
finishRelease is a writer ending through a path that releases;
finishLeak is a writer ending through one of the paths of write2sql that
never release (early sys.exit, connect-exhaustion give-up, crash). -/
inductive PoolStep : PoolState → PoolState → Prop
  | dispatch (s : PoolState) (h : 0 < s.available) :
      PoolStep s { available := s.available - 1, inflight := s.inflight + 1 }
  | finishRelease (s : PoolState) (h : 0 < s.inflight) :
      PoolStep s { available := s.available + 1, inflight := s.inflight - 1 }
  | finishLeak (s : PoolState) (h : 0 < s.inflight) :
      PoolStep s { available := s.available, inflight := s.inflight - 1 }

/-- States reachable from the initial pool state of the given capacity. -/
inductive PoolReachable (cap : Nat) : PoolState → Prop
  | init : PoolReachable cap (initPool cap)
  | step {s t : PoolState} : PoolReachable cap s → PoolStep s t → PoolReachable cap t

/-! ## Initial MQTT connect, Mqtt2Sql.mqtt_connect (lines 819-868) and the
check in Mqtt2Sql.__init__ (lines 454-456). self.connect_rc is initialized
to 0 at line 431 and only ever written by on_connect (line 729); when the
broker never answers within the connect timeout, wait_for_connect times out
and mqtt_connect returns (None, self.connect_rc) with connect_rc still 0. -/

/-- Initial value of self.connect_rc (line 431). -/
def initial_connect_rc : Int := 0

/-- Environment of the initial connect: mqttc.connect raises (line 860);
the broker never acknowledges within the timeout (wait_for_connect returns
False with on_connect never invoked); or the broker acknowledges with the
given paho return code (0 is MQTT_ERR_SUCCESS). -/
inductive MqttConnEnv where
  | connectRaises
  | noAck
  | ack (rc : Int)
deriving DecidableEq

/-- Return code of mqtt_connect (second component of its result pair):
ExitCode.MQTT_CONNECTION_ERROR when connect raises (line 861);
self.connect_rc when wait_for_connect times out (line 865) — still
initial_connect_rc if on_connect never ran, the broker ack code if it ran
with a failure code; ExitCode.OK on an acknowledged success (line 868). -/
def mqtt_connect_ret : MqttConnEnv → Int
  | MqttConnEnv.connectRaises => (ExitCode.MQTT_CONNECTION_ERROR : Nat)
  | MqttConnEnv.noAck => initial_connect_rc
  | MqttConnEnv.ack rc => if rc = 0 then (ExitCode.OK : Nat) else rc

/-- What Mqtt2Sql.__init__ does after mqtt_connect (lines 454-456):
either it proceeds into the run loop, or it performs the class-level call
SignalHandler.exitus(ret, message) — whose second positional argument, the
message string, binds the `status` parameter (see
classCallExitusStatusArg). -/
inductive InitAction where
  | proceeds
  | callsExitus (statusArg : PyVal)
deriving DecidableEq

/-- Control flow of the __init__ check at lines 455-456. -/
def initAfterConnect (env : MqttConnEnv) (failMsg : String) : InitAction :=
  if mqtt_connect_ret env ≠ (ExitCode.OK : Nat) then
    InitAction.callsExitus (classCallExitusStatusArg failMsg)
  else InitAction.proceeds

/-! ## Character membership helper and concrete inputs used by the
witnesses and counterexamples below. -/

/-- Membership of a character in a character list. -/
def hasChar (cs : List Char) (c : Char) : Bool :=
  cs.any (fun d => d == c)

/-- Environment in which every storage connect attempt succeeds. -/
def connAllOk : Nat → ConnectAttempt := fun _ => ConnectAttempt.success

/-- Environment in which every storage connect attempt raises with error
code 0 (an exception without usable args, line 540). -/
def connFailAlways : Nat → ConnectAttempt := fun _ => ConnectAttempt.failure 0

/-- Environment in which every storage connect attempt raises with the
non-retryable error code 2005. -/
def connFail2005 : Nat → ConnectAttempt := fun _ => ConnectAttempt.failure 2005

/-- Transaction environment: the first attempt hits a MySQL deadlock
(error 1213 is in the retryable list of line 615, as are 1040 and 1205; the
trace below uses 1205), every later attempt would succeed. -/
def txDeadlockThenOk : Nat → TxAttempt :=
  fun k => if k = 0 then TxAttempt.mysqlErr 1205 else TxAttempt.success

/-- Transaction environment: the first commit raises the SQLite locked
error, every later attempt would succeed. -/
def txLockedThenOk : Nat → TxAttempt :=
  fun k => if k = 0 then TxAttempt.sqliteErr "database is locked" else TxAttempt.success

/-- Transaction environment in which every attempt succeeds. -/
def txAllOk : Nat → TxAttempt := fun _ => TxAttempt.success

/-- Arguments with the default retry budgets (DEFAULTS, lines 119-121). -/
def argsDefaultRetry : Args :=
  { sql_connection_retry := 10, sql_transaction_retry := 10 }

/-- Arguments with a single connect attempt in the budget. -/
def argsOneConnRetry : Args :=
  { sql_connection_retry := 1, sql_transaction_retry := 10 }

/-- A demonstration row for the table-semantics witnesses. -/
def rowDemo : SqlRow :=
  { topic := "tele/dev/SENSOR", ts := "2024-01-01 00:00:00", value := "00abff",
    qos := 0, retain := 0 }

/-- A topic containing a single-quote character. -/
def injTopic : String := "a" ++ sqStr ++ "b"

/-- A message whose topic contains a single-quote character. -/
def injMessage : MqttMessage :=
  { topic := injTopic, payload := [18, 52], qos := 0, retain := 0 }

/-- A demonstration exclusion list. -/
def exclDemo : List String := ["home/secret", "tele/x"]

/-! ## Theorems -/

/-- C8: for every failed storage-connect attempt with retries remaining,
the sleep before retry attempt k equals base * (k + 1): the delay starts at
the configured base and grows by adding the base again after each failed
attempt (connectionDelayAt embeds lines 509-510 and 546-547). -/
theorem connection_delay_grows_linearly (base : ℚ) (k : Nat) :
    connectionDelayAt base k = base * (k + 1) := by
  induction k with
  | zero => simp [connectionDelayAt]
  | succ n ih =>
    rw [connectionDelayAt, ih]
    push_cast
    ring

/-- C9: a storage-connect attempt failing with the error code the source
classifies as non-retryable (err.args[0] equal to 2005, lines 541-542)
forces the connection_retry counter to 0 and ends the connect loop at that
very attempt with the give-up outcome, regardless of the remaining retry
budget: the result is gaveUp (k + 1), i.e. no attempt beyond index k is
performed, for every environment and every budget. -/
theorem nonretryable_connect_error_stops (env : Nat → ConnectAttempt) (retry k : Nat)
    (h : env k = ConnectAttempt.failure 2005) :
    connectRetryAfterFailure (retry + 1) 2005 = 0 ∧
    connectLoop env (retry + 1) k = ConnectOutcome.gaveUp (k + 1) := by
  constructor
  · simp [connectRetryAfterFailure]
  · rw [connectLoop, h]
    simp [connectRetryAfterFailure]

/-- Witness for C9 at a concrete input: with a budget of 10 attempts and an
environment always failing with code 2005, the loop gives up after the
first attempt. -/
theorem nonretryable_connect_error_stops_witness :
    connFail2005 0 = ConnectAttempt.failure 2005 ∧
    connectLoop connFail2005 10 0 = ConnectOutcome.gaveUp 1 :=
  ⟨rfl, (nonretryable_connect_error_stops connFail2005 9 0 rfl).2⟩

/-- C1 (evaluation at the failing input): with the default budgets, an
environment in which the first transaction attempt raises the retryable
MySQL deadlock error 1205 and every later attempt would succeed, the writer
performs exactly ONE transaction attempt and commits nothing: the handler
decrements the retry counter to 9 and sleeps the jittered delay as if about
to retry, but the return statement inside the finally block (line 629) then
ends the function, so the transaction phase is never re-executed. The same
happens in the SQLite backend when the first commit raises the locked
error. The claimed retry-until-success therefore never occurs. -/
theorem transaction_retry_never_reexecutes :
    write2sql argsDefaultRetry false connAllOk false txDeadlockThenOk =
      { termination := WriterTermination.returnedNormally, connectAttempts := 1,
        txAttempts := 1, txRetryFinal := 9, sleptTxDelay := true, rolledBack := false,
        releases := 1, committed := false, exitCodeAfter := 0 } ∧
    txDeadlockThenOk 1 = TxAttempt.success ∧
    (write2sql argsDefaultRetry false connAllOk false txLockedThenOk).txAttempts = 1 ∧
    (write2sql argsDefaultRetry false connAllOk false txLockedThenOk).committed = false ∧
    (write2sql argsDefaultRetry false connAllOk false txLockedThenOk).txRetryFinal = 9 :=
  ⟨rfl, rfl, rfl, rfl, rfl⟩

/-- C2 (evaluation at the failing input): exhausting the connect budget
does reach the give-up path (lines 548-551), but neither of the two
termination routes it triggers makes the process exit with
ExitCode.SQL_CONNECTION_ERROR = 3. The class-level call
SignalHandler.exitus(ExitCode.SQL_CONNECTION_ERROR, message) binds the
message string to the status parameter, so sys.exit receives a str and
CPython exits with status 1; the os.kill(SIGTERM) route runs the bound
handler, whose status is the signal number 15, which exitus maps to exit
status 0 (lines 932-933). -/
theorem sql_connect_exhaustion_wrong_exit_status :
    (write2sql argsOneConnRetry false connFailAlways false txAllOk).termination
        = WriterTermination.fatalSqlGiveUp ∧
    sysExitStatus (exitusFinalStatus (classCallExitusStatusArg (sqlGiveUpMessage "err"))) = 1 ∧
    sysExitStatus (exitusFinalStatus (PyVal.int SIGTERM)) = 0 ∧
    (1 : Int) ≠ ((ExitCode.SQL_CONNECTION_ERROR : Nat) : Int) ∧
    (0 : Int) ≠ ((ExitCode.SQL_CONNECTION_ERROR : Nat) : Int) :=
  ⟨rfl, rfl, rfl, by decide, by decide⟩

/-- C5 (evaluation at the failing inputs): when the broker never
acknowledges within the connect timeout, mqtt_connect returns
self.connect_rc still holding its initial value 0 = ExitCode.OK, so
__init__ PROCEEDS instead of terminating; and when the connect call raises,
the class-level exitus call binds the message string to status, so sys.exit
receives a str and the process exits with status 1, not
ExitCode.MQTT_CONNECTION_ERROR = 2. -/
theorem mqtt_initial_connect_failure_behavior :
    mqtt_connect_ret MqttConnEnv.noAck = ((ExitCode.OK : Nat) : Int) ∧
    (∀ msg, initAfterConnect MqttConnEnv.noAck msg = InitAction.proceeds) ∧
    (∀ msg, initAfterConnect MqttConnEnv.connectRaises msg
        = InitAction.callsExitus (PyVal.str msg)) ∧
    (∀ msg, sysExitStatus (exitusFinalStatus (classCallExitusStatusArg msg)) = 1) ∧
    (1 : Int) ≠ ((ExitCode.MQTT_CONNECTION_ERROR : Nat) : Int) :=
  ⟨rfl, fun msg => rfl, fun msg => rfl, fun msg => rfl, by decide⟩

/-- C3 counterexample: a writer invocation whose single budgeted connect
attempt fails ends through the fatal give-up path with ZERO releases of the
pool permit, refuting the claim that every invocation releases the permit
exactly once on every exit path. -/
theorem permit_release_counterexample :
    (write2sql argsOneConnRetry false connFailAlways false txAllOk).releases = 0 :=
  rfl

/-- C3 amended: a writer invocation never releases the permit more than
once, and it releases exactly once precisely on the paths that reach the
transaction phase and return normally (successful commit, any handled
transaction error, or a zero transaction budget); the early cancellation
exit, the connect-retry-exhaustion fatal path and the missing-connection
crash all end the invocation without releasing. -/
theorem permit_release_discipline (args : Args) (exitPending : Bool)
    (connEnv : Nat → ConnectAttempt) (rollbackRaises : Bool) (txEnv : Nat → TxAttempt) :
    (write2sql args exitPending connEnv rollbackRaises txEnv).releases ≤ 1 ∧
    ((write2sql args exitPending connEnv rollbackRaises txEnv).releases = 1 ↔
      (write2sql args exitPending connEnv rollbackRaises txEnv).termination
        = WriterTermination.returnedNormally) := by
  unfold write2sql
  cases exitPending with
  | true => simp
  | false =>
    cases hc : connectLoop connEnv args.sql_connection_retry 0 with
    | connected n =>
      cases hr : args.sql_transaction_retry with
      | zero => simp
      | succ m => cases ht : txEnv 0 <;> simp
    | gaveUp n => simp
    | noAttempt => simp

/-- Invariant of the permit pool: the in-flight writers plus the free
permits never exceed the capacity. A dispatch moves a permit from free to
in-flight, a releasing finish moves it back, and a leaking finish only
lowers the total. -/
theorem pool_sum_invariant (cap : Nat) (s : PoolState) (h : PoolReachable cap s) :
    s.inflight + s.available ≤ cap := by
  induction h with
  | init => simp [initPool]
  | step hp hstep ih =>
    cases hstep with
    | dispatch hav => simp only []; omega
    | finishRelease hin => simp only []; omega
    | finishLeak hin => simp only []; omega

/-- C4: at every state reachable by the dispatch/writer step relation the
number of in-flight Storage Writer tasks is at most the pool capacity; the
dispatch step acquires a permit (requiring one to be free — dispatch blocks
when the pool of sql_max_connection permits, default
default_sql_max_connection = 50, is exhausted) before a writer starts. -/
theorem pool_inflight_bounded (cap : Nat) (s : PoolState) (h : PoolReachable cap s) :
    s.inflight ≤ cap :=
  Nat.le_trans (Nat.le_add_right _ _) (pool_sum_invariant cap s h)

/-- Witness for C4 at a concrete input: the state after one dispatch from
the initial pool of the default capacity is reachable and its in-flight
count is within the bound. -/
theorem pool_inflight_bounded_witness :
    PoolReachable default_sql_max_connection { available := 49, inflight := 1 } ∧
    ({ available := 49, inflight := 1 } : PoolState).inflight ≤ default_sql_max_connection := by
  have hstep : PoolStep (initPool default_sql_max_connection)
      { available := 49, inflight := 1 } :=
    PoolStep.dispatch (initPool default_sql_max_connection) (by decide)
  have hr : PoolReachable default_sql_max_connection { available := 49, inflight := 1 } :=
    PoolReachable.step PoolReachable.init hstep
  exact ⟨hr, pool_inflight_bounded default_sql_max_connection _ hr⟩

/-- C7: an inbound message whose topic exactly matches an entry of the
configured exclusion list is never dispatched: on_message ends without the
permit acquisition and writer-thread start of lines 761-763 (the dispatch
action is the only branch performing them). -/
theorem excluded_topic_never_dispatched (exit_code : Nat) (excl : Option (List String))
    (topic : String) (l : List String) (hexcl : excl = some l) (hmem : topic ∈ l) :
    on_message exit_code excl topic ≠ DispatchAction.dispatch := by
  subst hexcl
  unfold on_message
  by_cases h : exit_code ≠ ExitCode.OK
  · simp [h]
  · have hx : excludedTopic (some l) topic = true := by
      simp [excludedTopic, hmem]
    simp [h, hx]

/-- Witness for C7 at a concrete input: a message on the first excluded
topic is not dispatched. -/
theorem excluded_topic_never_dispatched_witness :
    "home/secret" ∈ exclDemo ∧
    on_message ExitCode.OK (some exclDemo) "home/secret" ≠ DispatchAction.dispatch :=
  ⟨by decide,
   excluded_topic_never_dispatched ExitCode.OK (some exclDemo) "home/secret" exclDemo rfl
     (by decide)⟩

/-- The per-row update keeps the topic column unchanged. -/
theorem applyUpdate_topic (r row : SqlRow) : (applyUpdate r row).topic = row.topic := by
  unfold applyUpdate
  split <;> rfl

/-- Counting rows of a topic over a cons. -/
theorem topicCount_cons (a : SqlRow) (t : List SqlRow) (x : String) :
    topicCount (a :: t) x = (if a.topic == x then 1 else 0) + topicCount t x := by
  simp only [topicCount, List.filter_cons]
  split <;> simp [List.length_cons, Nat.add_comm]

/-- Counting rows of a topic over an append. -/
theorem topicCount_append (t1 t2 : List SqlRow) (x : String) :
    topicCount (t1 ++ t2) x = topicCount t1 x + topicCount t2 x := by
  simp [topicCount, List.filter_append]

/-- Counting rows of a topic in a one-row table. -/
theorem topicCount_singleton (r : SqlRow) (x : String) :
    topicCount [r] x = if r.topic == x then 1 else 0 := by
  rw [topicCount_cons]
  simp [topicCount]

/-- A topic-preserving map leaves the per-topic counts unchanged. -/
theorem topicCount_map_preserving (f : SqlRow → SqlRow)
    (hf : ∀ row, (f row).topic = row.topic) (t : List SqlRow) (x : String) :
    topicCount (t.map f) x = topicCount t x := by
  induction t with
  | nil => rfl
  | cons a as ih => rw [List.map_cons, topicCount_cons, topicCount_cons, hf a, ih]

/-- A topic-preserving map leaves topic membership unchanged. -/
theorem hasTopic_map_preserving (f : SqlRow → SqlRow)
    (hf : ∀ row, (f row).topic = row.topic) (t : List SqlRow) (x : String) :
    hasTopic (t.map f) x = hasTopic t x := by
  induction t with
  | nil => rfl
  | cons a as ih =>
    simp only [List.map_cons, hasTopic, List.any_cons, hf a]
    simp only [hasTopic] at ih
    rw [ih]

/-- An absent topic has count zero. -/
theorem topicCount_eq_zero_of_not_hasTopic (t : List SqlRow) (x : String)
    (h : hasTopic t x = false) : topicCount t x = 0 := by
  induction t with
  | nil => rfl
  | cons a as ih =>
    simp only [hasTopic, List.any_cons, Bool.or_eq_false_iff] at h
    rw [topicCount_cons, h.1, ih h.2]
    simp

/-- A present topic has positive count. -/
theorem topicCount_pos_of_hasTopic (t : List SqlRow) (x : String)
    (h : hasTopic t x = true) : 1 ≤ topicCount t x := by
  induction t with
  | nil => cases h
  | cons a as ih =>
    simp only [hasTopic, List.any_cons, Bool.or_eq_true] at h
    rw [topicCount_cons]
    rcases h with h1 | h2
    · rw [h1]
      simp
    · have := ih h2
      omega

/-- The topic count of the updated table equals that of the original. -/
theorem topicCount_updateWhereTopic (t : List SqlRow) (r : SqlRow) (x : String) :
    topicCount (updateWhereTopic t r) x = topicCount t x :=
  topicCount_map_preserving (applyUpdate r) (fun row => applyUpdate_topic r row) t x

/-- Topic membership of the updated table equals that of the original. -/
theorem hasTopic_updateWhereTopic (t : List SqlRow) (r : SqlRow) (x : String) :
    hasTopic (updateWhereTopic t r) x = hasTopic t x :=
  hasTopic_map_preserving (applyUpdate r) (fun row => applyUpdate_topic r row) t x

/-- INSERT OR IGNORE leaves the written topic present. -/
theorem hasTopic_insertOrIgnore (t : List SqlRow) (r : SqlRow) :
    hasTopic (insertOrIgnore t r) r.topic = true := by
  unfold insertOrIgnore
  split
  · next h => exact h
  · simp [hasTopic, List.any_append]

/-- INSERT OR IGNORE on a table already containing the topic is the
identity. -/
theorem insertOrIgnore_of_hasTopic (t : List SqlRow) (r : SqlRow)
    (h : hasTopic t r.topic = true) : insertOrIgnore t r = t := by
  unfold insertOrIgnore
  simp [h]

/-- After INSERT OR IGNORE the written topic has exactly one row, provided
the table held at most one before. -/
theorem topicCount_insertOrIgnore_self (t : List SqlRow) (r : SqlRow)
    (hu : topicCount t r.topic ≤ 1) :
    topicCount (insertOrIgnore t r) r.topic = 1 := by
  unfold insertOrIgnore
  split
  · next h => have := topicCount_pos_of_hasTopic t r.topic h; omega
  · next h =>
    have h0 := topicCount_eq_zero_of_not_hasTopic t r.topic (by simpa using h)
    rw [topicCount_append, h0, topicCount_singleton]
    simp

/-- INSERT OR IGNORE preserves the at-most-one-row-per-topic invariant. -/
theorem uniq_insertOrIgnore (t : List SqlRow) (r : SqlRow) (hu : UniqTable t) :
    UniqTable (insertOrIgnore t r) := by
  intro x
  unfold insertOrIgnore
  split
  · exact hu x
  · next h =>
    rw [topicCount_append, topicCount_singleton]
    by_cases hx : (r.topic == x) = true
    · have hxeq : r.topic = x := eq_of_beq hx
      have h0 : topicCount t x = 0 :=
        hxeq ▸ topicCount_eq_zero_of_not_hasTopic t r.topic (by simpa using h)
      rw [h0, hx]
      simp
    · rw [Bool.not_eq_true] at hx
      rw [hx]
      have := hu x
      simpa using this

/-- The UPDATE statement preserves the invariant. -/
theorem uniq_updateWhereTopic (t : List SqlRow) (r : SqlRow) (hu : UniqTable t) :
    UniqTable (updateWhereTopic t r) := by
  intro x
  rw [topicCount_updateWhereTopic]
  exact hu x

/-- A committed SQLite write preserves the invariant. -/
theorem uniq_sqliteWrite (t : List SqlRow) (r : SqlRow) (hu : UniqTable t) :
    UniqTable (sqliteWrite t r) :=
  uniq_updateWhereTopic _ _ (uniq_insertOrIgnore t r hu)

/-- A committed MySQL upsert preserves the invariant. -/
theorem uniq_mysqlUpsert (t : List SqlRow) (r : SqlRow) (hu : UniqTable t) :
    UniqTable (mysqlUpsert t r) := by
  unfold mysqlUpsert
  split
  · exact uniq_updateWhereTopic t r hu
  · next h =>
    have : insertOrIgnore t r = t ++ [r] := by
      unfold insertOrIgnore
      rw [if_neg h]
    exact this ▸ uniq_insertOrIgnore t r hu

/-- After a committed SQLite write the written topic has exactly one row. -/
theorem topicCount_sqliteWrite_self (t : List SqlRow) (r : SqlRow) (hu : UniqTable t) :
    topicCount (sqliteWrite t r) r.topic = 1 := by
  unfold sqliteWrite
  rw [topicCount_updateWhereTopic]
  exact topicCount_insertOrIgnore_self t r (hu r.topic)

/-- After a committed MySQL upsert the written topic has exactly one row. -/
theorem topicCount_mysqlUpsert_self (t : List SqlRow) (r : SqlRow) (hu : UniqTable t) :
    topicCount (mysqlUpsert t r) r.topic = 1 := by
  unfold mysqlUpsert
  split
  · next h =>
    rw [topicCount_updateWhereTopic]
    have h1 := topicCount_pos_of_hasTopic t r.topic h
    have h2 := hu r.topic
    omega
  · next h =>
    have h0 := topicCount_eq_zero_of_not_hasTopic t r.topic (by simpa using h)
    rw [topicCount_append, h0, topicCount_singleton]
    simp

/-- The per-row update is idempotent. -/
theorem applyUpdate_idem (r row : SqlRow) :
    applyUpdate r (applyUpdate r row) = applyUpdate r row := by
  by_cases h : (row.topic == r.topic) = true <;> simp [applyUpdate, h]

/-- The UPDATE statement is idempotent. -/
theorem updateWhereTopic_idem (t : List SqlRow) (r : SqlRow) :
    updateWhereTopic (updateWhereTopic t r) r = updateWhereTopic t r := by
  induction t with
  | nil => rfl
  | cons a as ih =>
    show applyUpdate r (applyUpdate r a) :: updateWhereTopic (updateWhereTopic as r) r
        = applyUpdate r a :: updateWhereTopic as r
    rw [applyUpdate_idem, ih]

/-- Replaying the identical write is the identity on the table. -/
theorem sqliteWrite_idem (t : List SqlRow) (r : SqlRow) :
    sqliteWrite (sqliteWrite t r) r = sqliteWrite t r := by
  have h1 : hasTopic (updateWhereTopic (insertOrIgnore t r) r) r.topic = true := by
    rw [hasTopic_updateWhereTopic, hasTopic_insertOrIgnore]
  show updateWhereTopic (insertOrIgnore (sqliteWrite t r) r) r = sqliteWrite t r
  unfold sqliteWrite
  rw [insertOrIgnore_of_hasTopic _ _ h1, updateWhereTopic_idem]

/-- The updated table has the same number of rows. -/
theorem length_updateWhereTopic (t : List SqlRow) (r : SqlRow) :
    (updateWhereTopic t r).length = t.length := by
  simp [updateWhereTopic]

/-- Replaying a write for an already-written topic adds no row. -/
theorem sqliteWrite_replay_length (t : List SqlRow) (r rp : SqlRow)
    (h : rp.topic = r.topic) :
    (sqliteWrite (sqliteWrite t r) rp).length = (sqliteWrite t r).length := by
  have h1 : hasTopic (sqliteWrite t r) rp.topic = true := by
    rw [h]
    unfold sqliteWrite
    rw [hasTopic_updateWhereTopic, hasTopic_insertOrIgnore]
  show (updateWhereTopic (insertOrIgnore (sqliteWrite t r) rp) rp).length = _
  rw [length_updateWhereTopic, insertOrIgnore_of_hasTopic _ _ h1]

/-- A whole sequence of committed SQLite writes preserves the invariant. -/
theorem uniq_sqliteWriteAll (msgs : List SqlRow) (t : List SqlRow) (hu : UniqTable t) :
    UniqTable (sqliteWriteAll msgs t) := by
  induction msgs generalizing t with
  | nil => exact hu
  | cons r rest ih => exact ih _ (uniq_sqliteWrite t r hu)

/-- C6: every committed write is an upsert keyed on topic. Starting from a
table with at most one row per topic, both the SQLite realization
(insert-if-absent followed by the unconditional update matching the topic,
one transaction) and the MySQL upsert preserve that invariant and leave
exactly one row for the written topic; replaying a message for the same
topic adds no row (the second write is an update, not a duplicate insert),
replaying the identical message leaves the table unchanged, and any
sequence of committed writes keeps at most one row per topic. -/
theorem upsert_keyed_on_topic (t : List SqlRow) (r rp : SqlRow) (msgs : List SqlRow)
    (hu : UniqTable t) (hrp : rp.topic = r.topic) :
    UniqTable (sqliteWrite t r) ∧
    UniqTable (mysqlUpsert t r) ∧
    topicCount (sqliteWrite t r) r.topic = 1 ∧
    topicCount (mysqlUpsert t r) r.topic = 1 ∧
    (sqliteWrite (sqliteWrite t r) rp).length = (sqliteWrite t r).length ∧
    sqliteWrite (sqliteWrite t r) r = sqliteWrite t r ∧
    UniqTable (sqliteWriteAll msgs t) :=
  ⟨uniq_sqliteWrite t r hu, uniq_mysqlUpsert t r hu, topicCount_sqliteWrite_self t r hu,
   topicCount_mysqlUpsert_self t r hu, sqliteWrite_replay_length t r rp hrp,
   sqliteWrite_idem t r, uniq_sqliteWriteAll msgs t hu⟩

/-- Witness for C6 at a concrete input: writing a demonstration row into
the empty table yields exactly one row for its topic, and replaying the
identical write changes nothing. -/
theorem upsert_keyed_on_topic_witness :
    UniqTable ([] : List SqlRow) ∧
    topicCount (sqliteWrite [] rowDemo) rowDemo.topic = 1 ∧
    sqliteWrite (sqliteWrite [] rowDemo) rowDemo = sqliteWrite [] rowDemo := by
  have hu : UniqTable ([] : List SqlRow) := fun x => by simp [topicCount]
  have h := upsert_keyed_on_topic [] rowDemo rowDemo [rowDemo] hu rfl
  exact ⟨hu, h.2.2.1, h.2.2.2.2.2.1⟩

/-- A lowercase hex digit is never the single-quote character. -/
theorem hexDigit_ne_quote (n : Nat) (h : n < 16) : (hexDigit n == quoteChar) = false := by
  interval_cases n <;> decide

/-- The hex encoding of any byte sequence contains no single-quote
character: the payload interpolation is quote-safe. -/
theorem hexEncode_no_quote (bs : List Nat) : hasChar (hexEncode bs) quoteChar = false := by
  induction bs with
  | nil => rfl
  | cons b rest ih =>
    rw [hexEncode]
    simp only [hasChar, List.any_cons] at *
    rw [hexDigit_ne_quote _ (by omega), hexDigit_ne_quote _ (by omega), ih]
    rfl

/-- C10: the writer builds its statements by plain interpolation of the raw
topic into the statement text, with the payload alone protected through hex
encoding; consequently there is a message whose topic contains a
single-quote character for which the quoted topic literal of the executed
statement text — read the way an SQL lexer reads it, up to the next closing
quote — is not the topic, in both the SQLite UPDATE and the MySQL upsert,
while the hex-encoded payload can never break its quotes. -/
theorem topic_interpolation_breaks_quoting :
    (∃ m : MqttMessage, hasChar m.topic.toList quoteChar = true ∧
      topicLiteralAfter ("topic=" ++ sqStr)
          (sqliteSql2 "mqtt" "2024-01-01 00:00:00" m.topic (hexEncodeStr m.payload) "0" "0")
        ≠ some m.topic ∧
      topicLiteralAfter ("`topic`=" ++ sqStr)
          (mysqlSql "mqtt" "2024-01-01 00:00:00" m.topic (hexEncodeStr m.payload) "0" "0")
        ≠ some m.topic) ∧
    (∀ bs : List Nat, hasChar (hexEncode bs) quoteChar = false) :=
  ⟨⟨injMessage, by decide, by decide, by decide⟩, hexEncode_no_quote⟩
